import Mathlib

/-!
Verification of the Web-Visualisasi numerical-integration scripts.

This file gives a shallow embedding, over exact rationals, of the numeric
core of the repository's three generator scripts:

* scripts/generate_chaos.py : rk4_classic, rk5_butcher, solve_ode,
  the per-system MAE comparison metrics, and the JSON-argument override
  parsing of the main block;
* scripts/generate_lotka.py : improved_rk5_lotka_volterra (a two-point
  multistep RK5-like integrator with an RK4 bootstrap), lotka_volterra,
  downsample_series, round_array / round_value, and the payload assembly
  of simulate_lotka_volterra;
* scripts/generate_sei.py : rk4 and rk7 grid integrators, the per-label
  stats records, and the payload assembly of simulate_sei_model.

State vectors live in an arbitrary rational vector space, so the same
definitions cover the 2-, 3- and 5-dimensional models.  Machine floats
are modelled as exact rationals; NumPy's round-half-to-even is modelled
exactly by round_half_even.
-/

set_option maxHeartbeats 1000000

/-- Python's int() conversion: truncation toward zero. -/
def py_int (q : ℚ) : ℤ := if 0 ≤ q then ⌊q⌋ else -⌊-q⌋

/-- Grid size of improved_rk5_lotka_volterra:
n_steps = int((t_end - t_start) / h) + 1. -/
def n_steps (t_start t_end h : ℚ) : ℕ := (py_int ((t_end - t_start) / h) + 1).toNat

/-- The i-th point of np.linspace(a, b, n): for n at least 2 the points are
a + i * (b - a) / (n - 1); np.linspace(a, b, 1) is the single point a. -/
def linspace_at (n : ℕ) (a b : ℚ) (i : ℕ) : ℚ :=
  if n ≤ 1 then a else a + (i : ℚ) * (b - a) / ((n : ℚ) - 1)

/-- np.linspace(a, b, n) as a list of n points. -/
def linspace (a b : ℚ) (n : ℕ) : List ℚ := (List.range n).map (linspace_at n a b)

/-- np.arange(s, e, h) for positive h: the points s + i * h for
0 <= i < ceil((e - s) / h). -/
def arange (s e h : ℚ) : List ℚ :=
  (List.range (⌈(e - s) / h⌉.toNat)).map (fun i : ℕ => s + (i : ℚ) * h)

/-- Decimal places kept by the serialization pipeline (DECIMALS = 4). -/
def DECIMALS : ℕ := 4

/-- Round to the nearest integer, ties to even: the rounding used by
np.round and Python's round builtin. -/
def round_half_even (q : ℚ) : ℤ :=
  if q - ⌊q⌋ < 1/2 then ⌊q⌋
  else if 1/2 < q - ⌊q⌋ then ⌊q⌋ + 1
  else if Even ⌊q⌋ then ⌊q⌋ else ⌊q⌋ + 1

/-- round_value from the generator scripts: round a scalar to DECIMALS
decimal digits (half to even). -/
def round_value (q : ℚ) : ℚ :=
  (round_half_even (q * 10 ^ DECIMALS) : ℚ) / 10 ^ DECIMALS

/-- round_array from the generator scripts: elementwise round_value. -/
def round_array (l : List ℚ) : List ℚ := l.map round_value

/-- downsample_series from the generator scripts: an array of length at
most limit is returned unchanged, otherwise the entries at the limit
indices np.linspace(0, len - 1, limit).astype(int), i.e. at
j * (len - 1) / (limit - 1) (floor division), are kept. -/
def downsample_series (arr : List ℚ) (limit : ℕ) : List ℚ :=
  if arr.length ≤ limit then arr
  else (List.range limit).map (fun j => arr.getD (j * (arr.length - 1) / (limit - 1)) 0)

/-- rk4_classic from generate_chaos.py: one classic fourth-order
Runge-Kutta step of size h from (t, y); params are already applied to f. -/
def rk4_classic {σ : Type} [AddCommGroup σ] [Module ℚ σ]
    (f : ℚ → σ → σ) (t : ℚ) (y : σ) (h : ℚ) : σ :=
  let k1 := f t y
  let k2 := f (t + h/2) (y + (h/2) • k1)
  let k3 := f (t + h/2) (y + (h/2) • k2)
  let k4 := f (t + h) (y + h • k3)
  y + (h/6) • (k1 + (2:ℚ) • k2 + (2:ℚ) • k3 + k4)

/-- rk5_butcher from generate_chaos.py: one step of the 6-stage
order-5 Butcher scheme. -/
def rk5_butcher {σ : Type} [AddCommGroup σ] [Module ℚ σ]
    (f : ℚ → σ → σ) (t : ℚ) (y : σ) (h : ℚ) : σ :=
  let k1 := f t y
  let k2 := f (t + h/4) (y + (h/4) • k1)
  let k3 := f (t + h/4) (y + (h/8) • k1 + (h/8) • k2)
  let k4 := f (t + h/2) (y - (h/2) • k2 + h • k3)
  let k5 := f (t + 3*h/4) (y + (3*h/16) • k1 + (9*h/16) • k4)
  let k6 := f (t + h) (y - (3*h/7) • k1 + (2*h/7) • k2 + (12*h/7) • k3
      - (12*h/7) • k4 + (8*h/7) • k5)
  y + (h/90) • ((7:ℚ) • k1 + (32:ℚ) • k3 + (12:ℚ) • k4 + (32:ℚ) • k5 + (7:ℚ) • k6)

/-- The state sequence of solve_ode from generate_chaos.py: y_values[0] = y0
and y_values[i+1] = method(f, t[i], y_values[i], h) over the arange grid
t[i] = s + i * h.  (The source writes y_values[0] = y0 into a zeros array,
which presupposes a nonempty grid.) -/
def solve_ode_y {σ : Type} [AddCommGroup σ] [Module ℚ σ]
    (method : (ℚ → σ → σ) → ℚ → σ → ℚ → σ) (f : ℚ → σ → σ)
    (s h : ℚ) (y0 : σ) : ℕ → σ
  | 0 => y0
  | i + 1 => method f (s + (i : ℚ) * h) (solve_ode_y method f s h y0 i) h

/-- solve_ode from generate_chaos.py: the (t_values, y_values) pair over
the np.arange(s, e, h) grid. -/
def solve_ode {σ : Type} [AddCommGroup σ] [Module ℚ σ]
    (method : (ℚ → σ → σ) → ℚ → σ → ℚ → σ) (f : ℚ → σ → σ)
    (s e h : ℚ) (y0 : σ) : List ℚ × List σ :=
  (arange s e h, (List.range (arange s e h).length).map (solve_ode_y method f s h y0))

/-- rk4 from generate_sei.py: the classic RK4 trajectory over an arbitrary
time grid t, with per-step size h = t[i+1] - t[i].  The grid is modelled as
a function giving the entries of the time array. -/
def rk4 {σ : Type} [AddCommGroup σ] [Module ℚ σ]
    (f : ℚ → σ → σ) (y0 : σ) (t : ℕ → ℚ) : ℕ → σ
  | 0 => y0
  | i + 1 =>
    let h := t (i+1) - t i
    let yi := rk4 f y0 t i
    let k1 := f (t i) yi
    let k2 := f (t i + h/2) (yi + (h/2) • k1)
    let k3 := f (t i + h/2) (yi + (h/2) • k2)
    let k4 := f (t i + h) (yi + h • k3)
    yi + (h/6) • (k1 + (2:ℚ) • k2 + (2:ℚ) • k3 + k4)

/-- The loop body of rk7 from generate_sei.py: one step of the 7-stage
scheme from (t, y) with step size h. -/
def rk7_step {σ : Type} [AddCommGroup σ] [Module ℚ σ]
    (f : ℚ → σ → σ) (t : ℚ) (y : σ) (h : ℚ) : σ :=
  let k1 := f t y
  let k2 := f (t + h/6) (y + (h/6) • k1)
  let k3 := f (t + h/3) (y + (h/12) • (k1 + k2))
  let k4 := f (t + h/2) (y + (h/8) • (k1 + (3:ℚ) • k3))
  let k5 := f (t + 2*h/3) (y + (h/6) • (k1 - (3:ℚ) • k3 + (4:ℚ) • k4))
  let k6 := f (t + 5*h/6) (y + (h/150) • ((11:ℚ) • k1 - (54:ℚ) • k3
      + (40:ℚ) • k4 + (27:ℚ) • k5))
  let k7 := f (t + h) (y + (h/6) • (k1 + (4:ℚ) • k4 + k5))
  y + (h/90) • ((7:ℚ) • k1 + (32:ℚ) • k3 + (12:ℚ) • k4 + (32:ℚ) • k5 + (7:ℚ) • k7)

/-- rk7 from generate_sei.py: the trajectory of rk7_step over an arbitrary
time grid t, with per-step size h = t[i+1] - t[i]. -/
def rk7 {σ : Type} [AddCommGroup σ] [Module ℚ σ]
    (f : ℚ → σ → σ) (y0 : σ) (t : ℕ → ℚ) : ℕ → σ
  | 0 => y0
  | i + 1 => rk7_step f (t i) (rk7 f y0 t i) (t (i+1) - t i)

/-- Variant of rk7_step with the unused stage k6 removed; this definition
follows the words of the claim that k6 never feeds the update, and is
compared with rk7_step, which is the one translated from the source. -/
def rk7_step_no_k6 {σ : Type} [AddCommGroup σ] [Module ℚ σ]
    (f : ℚ → σ → σ) (t : ℚ) (y : σ) (h : ℚ) : σ :=
  let k1 := f t y
  let k2 := f (t + h/6) (y + (h/6) • k1)
  let k3 := f (t + h/3) (y + (h/12) • (k1 + k2))
  let k4 := f (t + h/2) (y + (h/8) • (k1 + (3:ℚ) • k3))
  let k5 := f (t + 2*h/3) (y + (h/6) • (k1 - (3:ℚ) • k3 + (4:ℚ) • k4))
  let k7 := f (t + h) (y + (h/6) • (k1 + (4:ℚ) • k4 + k5))
  y + (h/90) • ((7:ℚ) • k1 + (32:ℚ) • k3 + (12:ℚ) • k4 + (32:ℚ) • k5 + (7:ℚ) • k7)

/-- The rk7 trajectory driven by the k6-free step. -/
def rk7_no_k6 {σ : Type} [AddCommGroup σ] [Module ℚ σ]
    (f : ℚ → σ → σ) (y0 : σ) (t : ℕ → ℚ) : ℕ → σ
  | 0 => y0
  | i + 1 => rk7_step_no_k6 f (t i) (rk7_no_k6 f y0 t i) (t (i+1) - t i)

/-- Stage-time abscissae of the rk7 tableau, read off the seven stage
evaluations of rk7_step: t, t + h/6, t + h/3, t + h/2, t + 2h/3,
t + 5h/6, t + h. -/
def rk7_c : Fin 7 → ℚ := ![0, 1/6, 1/3, 1/2, 2/3, 5/6, 1]

/-- Update weights of the rk7 tableau, read off the final combination of
rk7_step: (h/90) * (7 k1 + 0 k2 + 32 k3 + 12 k4 + 32 k5 + 0 k6 + 7 k7). -/
def rk7_b : Fin 7 → ℚ := ![7/90, 0, 32/90, 12/90, 32/90, 0, 7/90]

/-- The state sequence of improved_rk5_lotka_volterra from
generate_lotka.py.  Steps i < nb take the classic RK4 bootstrap; later
steps combine two five-stage sets, one anchored at (t[i], y[i]) and one
at (t[i-1], y[i-1]), with the fixed weights of the source.  Faithful for
bootstrap length n_steps_back at least 1 (the default): indices beyond
the source's loop bound n_steps - 1 continue the same recurrence, while
the source leaves the zero-initialised rows of the array untouched
there, so theorems restrict attention to the loop range; and for
n_steps_back = 0 the source's first lagged anchor y[i-1] at i = 0 is
NumPy negative indexing into the zero-initialised last row, whereas the
truncated subtraction here yields y[0] (immaterial for fields, such as
the zero field, whose stages do not depend on the anchor). -/
def improved_rk5_lotka_volterra {σ : Type} [AddCommGroup σ] [Module ℚ σ]
    (f : ℚ → σ → σ) (t_start t_end h : ℚ) (y0 : σ) (nb : ℕ) : ℕ → σ
  | 0 => y0
  | i + 1 =>
    let t := linspace_at (n_steps t_start t_end h) t_start t_end
    let yi := improved_rk5_lotka_volterra f t_start t_end h y0 nb i
    if i < nb then
      let k1 := f (t i) yi
      let k2 := f (t i + h/2) (yi + (h/2) • k1)
      let k3 := f (t i + h/2) (yi + (h/2) • k2)
      let k4 := f (t i + h) (yi + h • k3)
      yi + (h/6) • (k1 + (2:ℚ) • k2 + (2:ℚ) • k3 + k4)
    else
      let yp := improved_rk5_lotka_volterra f t_start t_end h y0 nb (i - 1)
      let k1 := f (t i) yi
      let k2 := f (t i + 0.25*h) (yi + (0.25*h) • k1)
      let k3 := f (t i + 0.25*h) (yi - (0.7272*h) • k1 + (0.7322*h) • k2)
      let k4 := f (t i + 0.5*h) (yi + (0.5734*h) • k1 - (2.2485*h) • k2 + (3.344*h) • k3)
      let k5 := f (t i + 0.75*h)
        (yi + (0.1750*h) • k1 + (0.0121*h) • k2 + (0.0559*h) • k3 + (0.5517*h) • k4)
      let km1 := f (t (i-1)) yp
      let km2 := f (t (i-1) + 0.25*h) (yp + (0.25*h) • km1)
      let km3 := f (t (i-1) + 0.25*h) (yp - (0.7272*h) • km1 + (0.7322*h) • km2)
      let km4 := f (t (i-1) + 0.5*h) (yp + (0.5734*h) • km1 - (2.2485*h) • km2 + (3.344*h) • km3)
      let km5 := f (t (i-1) + 0.75*h)
        (yp + (0.1750*h) • km1 + (0.0121*h) • km2 + (0.0559*h) • km3 + (0.5517*h) • km4)
      yi + h • ((1.0222:ℚ) • k1 - (0.0222:ℚ) • km1 - (0.0961:ℚ) • (k2 - km2)
          + (0.0295:ℚ) • (k3 - km3) - (0.1:ℚ) • (k4 - km4) + (0.06444:ℚ) • (k5 - km5))
  termination_by i => i

/-- lotka_volterra from generate_lotka.py: the predator-prey vector field
with parameters (alpha, beta, delta, gamma) on states (prey, predator). -/
def lotka_volterra (alpha beta delta gamma : ℚ) (_t : ℚ) (y : ℚ × ℚ) : ℚ × ℚ :=
  (alpha * y.1 - beta * y.1 * y.2, delta * y.1 * y.2 - gamma * y.2)

/-- The time array t of simulate_lotka_volterra: the integrator's
np.linspace grid for t_span = (0, 50), h = 0.05. -/
def lotka_t : List ℚ := linspace 0 50 (n_steps 0 50 (1/20))

/-- The trajectory of simulate_lotka_volterra: improved_rk5_lotka_volterra
on the Lotka-Volterra field with the default parameters alpha = 1,
beta = 0.1, delta = 0.1, gamma = 1, y0 = (10, 5), h = 0.05, default
bootstrap length 1. -/
def lotka_y (i : ℕ) : ℚ × ℚ :=
  improved_rk5_lotka_volterra (lotka_volterra 1 (1/10) (1/10) 1) 0 50 (1/20) (10, 5) 1 i

/-- The full-resolution prey series y[:, 0] of simulate_lotka_volterra. -/
def lotka_prey_full : List ℚ :=
  (List.range (n_steps 0 50 (1/20))).map (fun i => (lotka_y i).1)

/-- The primary "time" payload array of simulate_lotka_volterra:
round_array(t if collect_full else downsample_series(t)). -/
def lotka_time_payload (collect_full : Bool) : List ℚ :=
  round_array (if collect_full then lotka_t else downsample_series lotka_t 400)

/-- The primary "prey" payload array of simulate_lotka_volterra:
round_array(y[:, 0] if collect_full else downsample_series(y[:, 0])). -/
def lotka_prey_payload (collect_full : Bool) : List ℚ :=
  round_array (if collect_full then lotka_prey_full else downsample_series lotka_prey_full 400)

/-- The optional "full" section of the lotka payload (its "time" entry):
present exactly when collect_full is requested. -/
def lotka_full_section (collect_full : Bool) : Option (List ℚ) :=
  if collect_full then some (round_array lotka_t) else none

/-- The time array t = np.linspace(0, 60, 2001) of simulate_sei_model. -/
def sei_t : List ℚ := linspace 0 60 2001

/-- The primary "time" payload array of simulate_sei_model:
round_array(t if collect_full else downsample_series(t, limit=300)). -/
def sei_time_payload (collect_full : Bool) : List ℚ :=
  round_array (if collect_full then sei_t else downsample_series sei_t 300)

/-- The per-component mean absolute error of the chaos comparison:
np.mean(np.abs(y_rk4 - y_rk5), axis=0) after both trajectories are
truncated to their common length (zip performs that truncation). -/
def mae_component (ya yb : List (Fin 3 → ℚ)) (j : Fin 3) : ℚ :=
  (((ya.zip yb).map (fun p => |p.1 j - p.2 j|)).sum) / ((ya.zip yb).length : ℚ)

/-- The rk5_comparison_metrics record emitted per system by
generate_chaos.py: the keys 'mae_x', 'mae_y', 'mae_z' with the
per-component mean absolute errors. -/
def rk5_comparison_metrics (ya yb : List (Fin 3 → ℚ)) : List (String × ℚ) :=
  [("mae_x", mae_component ya yb 0),
   ("mae_y", mae_component ya yb 1),
   ("mae_z", mae_component ya yb 2)]

/-- One entry of the stats list of simulate_sei_model: a label together
with the rounded maximum and mean absolute differences of one component. -/
structure SeiStat where
  label : String
  max_abs : ℚ
  mean_abs : ℚ
deriving DecidableEq

/-- Column k of diff_abs = np.abs(rk4_res - rk7_res) in
simulate_sei_model (zip truncates to the common length). -/
def sei_diff_col (y4 y7 : List (Fin 5 → ℚ)) (k : Fin 5) : List ℚ :=
  (y4.zip y7).map (fun p => |p.1 k - p.2 k|)

/-- np.max(diff_abs[:, k]) (as a fold with neutral 0; the source arrays
are nonempty). -/
def sei_max_abs (y4 y7 : List (Fin 5 → ℚ)) (k : Fin 5) : ℚ :=
  (sei_diff_col y4 y7 k).foldr max 0

/-- np.mean(diff_abs[:, k]). -/
def sei_mean_abs (y4 y7 : List (Fin 5 → ℚ)) (k : Fin 5) : ℚ :=
  (sei_diff_col y4 y7 k).sum / ((sei_diff_col y4 y7 k).length : ℚ)

/-- The component labels of the SEI model. -/
def sei_labels : List String := ["S", "E", "I1", "I2", "R"]

/-- The stats list of simulate_sei_model: for each label, in the order
of enumerate(labels), the rounded max and mean absolute difference of
that component. -/
def sei_stats (y4 y7 : List (Fin 5 → ℚ)) : List SeiStat :=
  [⟨"S", round_value (sei_max_abs y4 y7 0), round_value (sei_mean_abs y4 y7 0)⟩,
   ⟨"E", round_value (sei_max_abs y4 y7 1), round_value (sei_mean_abs y4 y7 1)⟩,
   ⟨"I1", round_value (sei_max_abs y4 y7 2), round_value (sei_mean_abs y4 y7 2)⟩,
   ⟨"I2", round_value (sei_max_abs y4 y7 3), round_value (sei_mean_abs y4 y7 3)⟩,
   ⟨"R", round_value (sei_max_abs y4 y7 4), round_value (sei_mean_abs y4 y7 4)⟩]

/-- A value held by a key of the parsed JSON override object, abstracted
by what float() does to it: either conversion succeeds with a rational
value, or it raises. -/
inductive OValue where
  | num (q : ℚ)
  | bad
deriving DecidableEq

/-- The effective configuration of generate_chaos.py's main block: the
step size h, the first initial-state component, and the per-system
parameters. -/
structure ChaosConfig where
  h : ℚ
  y0x : ℚ
  lorenz_sigma : ℚ
  lorenz_rho : ℚ
  lorenz_beta : ℚ
  chen_a : ℚ
  chen_b : ℚ
  chen_c : ℚ
  rossler_a : ℚ
  rossler_b : ℚ
  rossler_c : ℚ
deriving DecidableEq

/-- The documented default configuration of generate_chaos.py:
h = 0.01, y0 = [1, 1, 1], Lorenz (10, 28, 8/3), Chen (35, 3, 28),
Rossler (0.2, 0.2, 5.7). -/
def default_config : ChaosConfig :=
  ⟨1/100, 1, 10, 28, 8/3, 35, 3, 28, 1/5, 1/5, 57/10⟩

/-- One conditional override step of the main block: if the key is absent
nothing happens; if float() succeeds the field is updated in place; if
float() raises, the exception escapes carrying the configuration as
mutated so far. -/
def apply_key (kv : List (String × OValue)) (key : String)
    (upd : ChaosConfig → ℚ → ChaosConfig) (cfg : ChaosConfig) :
    Except ChaosConfig ChaosConfig :=
  match kv.lookup key with
  | none => .ok cfg
  | some (.num q) => .ok (upd cfg q)
  | some .bad => .error cfg

/-- The override application sequence of generate_chaos.py's main block
(lines 100-137): timeStep, initX, then force/damping mapped onto Lorenz
rho/beta, Chen c/b and Rossler c, in source order.  The variables h, y0
and system_params are mutated in place, so when a float() conversion
raises mid-sequence, the except handler proceeds with every earlier
update still applied. -/
def apply_overrides (cfg : ChaosConfig) (kv : List (String × OValue)) : ChaosConfig :=
  let r : Except ChaosConfig ChaosConfig := do
    let c ← apply_key kv "timeStep" (fun c q => { c with h := q }) cfg
    let c ← apply_key kv "initX" (fun c q => { c with y0x := q }) c
    let c ← apply_key kv "force" (fun c q => { c with lorenz_rho := q }) c
    let c ← apply_key kv "damping" (fun c q => { c with lorenz_beta := q }) c
    let c ← apply_key kv "force" (fun c q => { c with chen_c := q }) c
    let c ← apply_key kv "damping" (fun c q => { c with chen_b := q }) c
    let c ← apply_key kv "force" (fun c q => { c with rossler_c := q }) c
    pure c
  match r with
  | .ok c => c
  | .error c => c

/-- The whole argument-handling of the main block: no argument or a JSON
parse failure (modelled as none) leaves the defaults; otherwise the
override sequence runs on the defaults. -/
def parse_overrides (inp : Option (List (String × OValue))) : ChaosConfig :=
  match inp with
  | none => default_config
  | some kv => apply_overrides default_config kv

/-! Helper lemmas about the grid and list primitives. -/

theorem getD_map_range {α : Type} (g : ℕ → α) (d : α) {n i : ℕ} (h : i < n) :
    ((List.range n).map g).getD i d = g i := by
  simp [List.getD_eq_getElem?_getD, List.getElem?_map, List.getElem?_range, h]

theorem head?_map_range {α : Type} (g : ℕ → α) {n : ℕ} (h : 0 < n) :
    ((List.range n).map g).head? = some (g 0) := by
  cases n with
  | zero => omega
  | succ m => simp [List.range_succ_eq_map]

theorem getLast?_map_range {α : Type} (g : ℕ → α) {n : ℕ} (h : 0 < n) :
    ((List.range n).map g).getLast? = some (g (n - 1)) := by
  rw [List.getLast?_eq_getElem?]
  simp [List.getElem?_map, List.getElem?_range, Nat.sub_lt h]

theorem pairwise_lt_map_range (g : ℕ → ℚ) (n : ℕ)
    (hg : ∀ i, i + 1 < n → g i < g (i + 1)) :
    ((List.range n).map g).Pairwise (· < ·) := by
  have key : ∀ j, j < n → ∀ i, i < j → g i < g j := by
    intro j
    induction j with
    | zero => intro _ i hi; omega
    | succ m ih =>
      intro hj i hi
      have hm : g m < g (m + 1) := hg m hj
      rcases Nat.lt_succ_iff_lt_or_eq.mp hi with hlt | rfl
      · exact lt_trans (ih (by omega) i hlt) hm
      · exact hm
  refine List.pairwise_iff_getElem.mpr ?_
  intro i j hi hj hij
  rw [List.length_map, List.length_range] at hi hj
  simp only [List.getElem_map, List.getElem_range]
  exact key j hj i hij

theorem linspace_at_zero (n : ℕ) (a b : ℚ) : linspace_at n a b 0 = a := by
  by_cases h : n ≤ 1 <;> simp [linspace_at, h]

theorem linspace_length (a b : ℚ) (n : ℕ) : (linspace a b n).length = n := by
  rw [linspace, List.length_map, List.length_range]

theorem arange_length (s e h : ℚ) : (arange s e h).length = ⌈(e - s) / h⌉.toNat := by
  rw [arange, List.length_map, List.length_range]

theorem arange_length_pos (s e h : ℚ) (hh : 0 < h) (hse : s < e) :
    0 < (arange s e h).length := by
  rw [arange_length]
  have : (0 : ℚ) < (e - s) / h := div_pos (by linarith) hh
  have : (0 : ℤ) < ⌈(e - s) / h⌉ := Int.ceil_pos.mpr this
  omega

theorem n_steps_pos (s e h : ℚ) (hh : 0 < h) (hse : s ≤ e) :
    0 < n_steps s e h := by
  have hq : (0 : ℚ) ≤ (e - s) / h := div_nonneg (by linarith) hh.le
  have : (0 : ℤ) ≤ ⌊(e - s) / h⌋ := Int.floor_nonneg.mpr hq
  simp only [n_steps, py_int, if_pos hq]
  omega

theorem round_array_length (l : List ℚ) : (round_array l).length = l.length := by
  simp [round_array]

theorem downsample_length (arr : List ℚ) (limit : ℕ) (hL : 2 ≤ limit) :
    (downsample_series arr limit).length = min arr.length limit := by
  by_cases h : arr.length ≤ limit
  · simp [downsample_series, h, Nat.min_eq_left h]
  · push_neg at h
    simp [downsample_series, Nat.not_le.mpr h, Nat.min_eq_right h.le]

theorem nonempty_head?_getD (l : List ℚ) (h : 0 < l.length) :
    l.head? = some (l.getD 0 0) := by
  cases l with
  | nil => simp at h
  | cons a t => simp [List.getD]

theorem nonempty_getLast?_getD (l : List ℚ) (h : 0 < l.length) :
    l.getLast? = some (l.getD (l.length - 1) 0) := by
  rw [List.getLast?_eq_getElem?, List.getD_eq_getElem?_getD,
    List.getElem?_eq_getElem (by omega)]
  rfl

/-- C8: for every array and every limit L at least 2, downsample_series
returns an array of length min(N, L) whose first and last elements are
those of the original array, and an array whose length is already at
most L (here: any truncation arr.take L) is returned unchanged. -/
theorem C8_downsample_series (arr : List ℚ) (limit : ℕ) (hL : 2 ≤ limit) :
    (downsample_series arr limit).length = min arr.length limit
  ∧ (downsample_series arr limit).head? = arr.head?
  ∧ (downsample_series arr limit).getLast? = arr.getLast?
  ∧ downsample_series (arr.take limit) limit = arr.take limit := by
  refine ⟨downsample_length arr limit hL, ?_, ?_, ?_⟩
  · by_cases h : arr.length ≤ limit
    · simp [downsample_series, h]
    · push_neg at h
      have hpos : 0 < arr.length := by omega
      rw [downsample_series, if_neg (by omega)]
      rw [head?_map_range _ (by omega : 0 < limit)]
      rw [Nat.zero_mul, Nat.zero_div, nonempty_head?_getD arr hpos]
  · by_cases h : arr.length ≤ limit
    · simp [downsample_series, h]
    · push_neg at h
      have hpos : 0 < arr.length := by omega
      rw [downsample_series, if_neg (by omega)]
      rw [getLast?_map_range _ (by omega : 0 < limit)]
      rw [Nat.mul_div_cancel_left _ (by omega : 0 < limit - 1)]
      rw [nonempty_getLast?_getD arr hpos]
  · have : (arr.take limit).length ≤ limit := by
      simp [List.length_take]
    simp [downsample_series, this]

/-- Witness for C8 at arr = [1, 2, 3, 4, 5], limit = 3: the result is
[1, 3, 5], of length min 5 3 = 3, keeping the first and last elements. -/
theorem C8_downsample_series_witness :
    2 ≤ 3
  ∧ ((downsample_series [(1:ℚ), 2, 3, 4, 5] 3).length = min [(1:ℚ), 2, 3, 4, 5].length 3
  ∧ (downsample_series [(1:ℚ), 2, 3, 4, 5] 3).head? = [(1:ℚ), 2, 3, 4, 5].head?
  ∧ (downsample_series [(1:ℚ), 2, 3, 4, 5] 3).getLast? = [(1:ℚ), 2, 3, 4, 5].getLast?
  ∧ downsample_series ([(1:ℚ), 2, 3, 4, 5].take 3) 3 = [(1:ℚ), 2, 3, 4, 5].take 3) :=
  ⟨by decide, C8_downsample_series [(1:ℚ), 2, 3, 4, 5] 3 (by decide)⟩

/-- C10: the stage k6 of rk7 is computed but used neither by a later
stage nor by the update: the k6-free step and trajectory coincide with
the original ones for every field, initial state, grid and step, so the
step has only 6 effective derivative evaluations (k1, k2, k3, k4, k5,
k7, with k2 feeding k3 and k6 feeding nothing). -/
theorem C10_k6_unused {σ : Type} [AddCommGroup σ] [Module ℚ σ]
    (f : ℚ → σ → σ) (u : ℚ) (y : σ) (h : ℚ) (y0 : σ) (t : ℕ → ℚ) (i : ℕ) :
    rk7_step f u y h = rk7_step_no_k6 f u y h
  ∧ rk7 f y0 t i = rk7_no_k6 f y0 t i := by
  constructor
  · rfl
  · induction i with
    | zero => rfl
    | succ m ih => rw [rk7, rk7_no_k6, ih]; rfl

/-- Counterexample for C2: the rk7 coefficients violate the third-order
quadrature condition, so they cannot satisfy the order conditions up to
order 7.  The sum of b_j c_j^2 is 25/81 instead of 1/3, and accordingly
one rk7 step applied to the field f(t, y) = t^2 from (0, 0) with h = 1
returns 25/81, not the exact increment 1/3 of the solution t^3/3 that
any method of order at least 3 must reproduce on this problem. -/
theorem C2_counterexample :
    (∑ j : Fin 7, rk7_b j * rk7_c j ^ 2) = 25/81
  ∧ (25/81 : ℚ) ≠ 1/3
  ∧ rk7_step (fun u (_ : ℚ) => u ^ 2) 0 0 1 = 25/81 := by
  refine ⟨?_, by norm_num, ?_⟩
  · simp [Fin.sum_univ_succ, Matrix.cons_val_zero, Matrix.cons_val_succ, rk7_b, rk7_c]
    norm_num
  · simp only [rk7_step, smul_eq_mul]
    norm_num

/-- C2 as amended: rk7 is a 7-stage explicit scheme whose stage times
and update weights are exactly the claimed ones (for a purely
time-dependent field, one step from y = 0 computes h times the rk7_b /
rk7_c quadrature rule), and its coefficients satisfy the quadrature
order conditions only up to order 2 (sum of weights 1, sum of b_j c_j
equal to 1/2); by C2_counterexample the order-3 condition fails, so the
method is not of order 7. -/
theorem C2_amended_tableau :
    (∀ (g : ℚ → ℚ) (u h : ℚ),
      rk7_step (fun v (_ : ℚ) => g v) u 0 h = h * ∑ j : Fin 7, rk7_b j * g (u + rk7_c j * h))
  ∧ (∑ j : Fin 7, rk7_b j) = 1
  ∧ (∑ j : Fin 7, rk7_b j * rk7_c j) = 1/2 := by
  refine ⟨?_, ?_, ?_⟩
  · intro g u h
    simp only [rk7_step, smul_eq_mul, Fin.sum_univ_succ, Fin.sum_univ_zero,
      Matrix.cons_val_zero, Matrix.cons_val_succ, rk7_b, rk7_c]
    ring_nf
  · simp [Fin.sum_univ_succ, Matrix.cons_val_zero, Matrix.cons_val_succ, rk7_b]
    norm_num
  · simp [Fin.sum_univ_succ, Matrix.cons_val_zero, Matrix.cons_val_succ, rk7_b, rk7_c]
    norm_num

theorem n_steps_lotka_eval : n_steps 0 50 (1/20) = 1001 := by
  norm_num [n_steps, py_int]
  decide

theorem lotka_t_length : lotka_t.length = 1001 := by
  rw [lotka_t, linspace_length, n_steps_lotka_eval]

theorem lotka_prey_full_length : lotka_prey_full.length = 1001 := by
  rw [lotka_prey_full, List.length_map, List.length_range, n_steps_lotka_eval]

theorem sei_t_length : sei_t.length = 2001 := by
  rw [sei_t, linspace_length]

/-- Counterexample for C4: the primary payload arrays are NOT
downsampled identically in the two modes.  With collect_full the
primary time and prey arrays of the Lotka run keep all 1001 entries and
the primary time array of the SEI run keeps all 2001 entries, while
without collect_full they are downsampled to 400 and 300 entries, so
the primary arrays differ between the two modes. -/
theorem C4_counterexample :
    lotka_time_payload true ≠ lotka_time_payload false
  ∧ lotka_prey_payload true ≠ lotka_prey_payload false
  ∧ sei_time_payload true ≠ sei_time_payload false := by
  have h1 : (lotka_time_payload true).length = 1001 := by
    rw [lotka_time_payload, if_pos rfl, round_array_length, lotka_t_length]
  have h2 : (lotka_time_payload false).length = 400 := by
    rw [lotka_time_payload, if_neg (by simp), round_array_length,
      downsample_length _ _ (by omega), lotka_t_length]
    omega
  have h3 : (lotka_prey_payload true).length = 1001 := by
    rw [lotka_prey_payload, if_pos rfl, round_array_length, lotka_prey_full_length]
  have h4 : (lotka_prey_payload false).length = 400 := by
    rw [lotka_prey_payload, if_neg (by simp), round_array_length,
      downsample_length _ _ (by omega), lotka_prey_full_length]
    omega
  have h5 : (sei_time_payload true).length = 2001 := by
    rw [sei_time_payload, if_pos rfl, round_array_length, sei_t_length]
  have h6 : (sei_time_payload false).length = 300 := by
    rw [sei_time_payload, if_neg (by simp), round_array_length,
      downsample_length _ _ (by omega), sei_t_length]
    omega
  refine ⟨fun hEq => ?_, fun hEq => ?_, fun hEq => ?_⟩
  · have := congrArg List.length hEq; omega
  · have := congrArg List.length hEq; omega
  · have := congrArg List.length hEq; omega

/-- C4 as amended: when full resolution is requested the primary payload
arrays are the full-resolution rounded arrays (downsampling is skipped,
lengths 1001 resp. 2001); when it is not requested they are downsampled
to the limit (400 resp. 300) and rounded; the "full" section is present
exactly when full resolution is requested, in addition to the primary
arrays. -/
theorem C4_amended_full_replaces_downsampling :
    lotka_time_payload true = round_array lotka_t
  ∧ lotka_time_payload false = round_array (downsample_series lotka_t 400)
  ∧ (lotka_time_payload true).length = 1001
  ∧ (lotka_time_payload false).length = 400
  ∧ (lotka_prey_payload true).length = 1001
  ∧ (lotka_prey_payload false).length = 400
  ∧ (sei_time_payload true).length = 2001
  ∧ (sei_time_payload false).length = 300
  ∧ lotka_full_section true = some (round_array lotka_t)
  ∧ lotka_full_section false = none := by
  refine ⟨rfl, rfl, ?_, ?_, ?_, ?_, ?_, ?_, rfl, rfl⟩
  · rw [lotka_time_payload, if_pos rfl, round_array_length, lotka_t_length]
  · rw [lotka_time_payload, if_neg (by simp), round_array_length,
      downsample_length _ _ (by omega), lotka_t_length]
    omega
  · rw [lotka_prey_payload, if_pos rfl, round_array_length, lotka_prey_full_length]
  · rw [lotka_prey_payload, if_neg (by simp), round_array_length,
      downsample_length _ _ (by omega), lotka_prey_full_length]
    omega
  · rw [sei_time_payload, if_pos rfl, round_array_length, sei_t_length]
  · rw [sei_time_payload, if_neg (by simp), round_array_length,
      downsample_length _ _ (by omega), sei_t_length]
    omega

/-- C1: for every step index i with n_steps_back <= i < n_steps - 1 (and
bootstrap length at least 1, the default), the multistep integrator
evaluates two 5-stage sets with stage-time offsets h/4, h/4, h/2, 3h/4,
one anchored at (t[i], y[i]) and one at (t[i-1], y[i-1]), and sets
y[i+1] = y[i] + h*(1.0222 k1 - 0.0222 k-1 - 0.0961 (k2 - k-2)
+ 0.0295 (k3 - k-3) - 0.1 (k4 - k-4) + 0.06444 (k5 - k-5)). -/
theorem C1_multistep_update {σ : Type} [AddCommGroup σ] [Module ℚ σ]
    (f : ℚ → σ → σ) (s e h : ℚ) (y0 : σ) (nb i : ℕ)
    (hnb : 1 ≤ nb) (hlo : nb ≤ i) (hhi : i < n_steps s e h - 1) :
    (let t := linspace_at (n_steps s e h) s e
     let yi := improved_rk5_lotka_volterra f s e h y0 nb i
     let yp := improved_rk5_lotka_volterra f s e h y0 nb (i - 1)
     let k1 := f (t i) yi
     let k2 := f (t i + 0.25*h) (yi + (0.25*h) • k1)
     let k3 := f (t i + 0.25*h) (yi - (0.7272*h) • k1 + (0.7322*h) • k2)
     let k4 := f (t i + 0.5*h) (yi + (0.5734*h) • k1 - (2.2485*h) • k2 + (3.344*h) • k3)
     let k5 := f (t i + 0.75*h)
       (yi + (0.1750*h) • k1 + (0.0121*h) • k2 + (0.0559*h) • k3 + (0.5517*h) • k4)
     let km1 := f (t (i-1)) yp
     let km2 := f (t (i-1) + 0.25*h) (yp + (0.25*h) • km1)
     let km3 := f (t (i-1) + 0.25*h) (yp - (0.7272*h) • km1 + (0.7322*h) • km2)
     let km4 := f (t (i-1) + 0.5*h) (yp + (0.5734*h) • km1 - (2.2485*h) • km2 + (3.344*h) • km3)
     let km5 := f (t (i-1) + 0.75*h)
       (yp + (0.1750*h) • km1 + (0.0121*h) • km2 + (0.0559*h) • km3 + (0.5517*h) • km4)
     improved_rk5_lotka_volterra f s e h y0 nb (i + 1)
       = yi + h • ((1.0222:ℚ) • k1 - (0.0222:ℚ) • km1 - (0.0961:ℚ) • (k2 - km2)
           + (0.0295:ℚ) • (k3 - km3) - (0.1:ℚ) • (k4 - km4) + (0.06444:ℚ) • (k5 - km5))) := by
  rw [improved_rk5_lotka_volterra]
  simp only [Nat.not_lt.mpr hlo, if_false]

/-- Witness for C1 at the zero field on scalars with s = 0, e = 1,
h = 1/2 (grid size 3), nb = 1, i = 1. -/
theorem C1_multistep_update_witness :
    1 ≤ 1 ∧ 1 ≤ 1 ∧ 1 < n_steps 0 1 (1/2) - 1
  ∧ (let t := linspace_at (n_steps 0 1 (1/2)) 0 1
     let yi := improved_rk5_lotka_volterra (fun _ _ => (0:ℚ)) 0 1 (1/2) 0 1 1
     let yp := improved_rk5_lotka_volterra (fun _ _ => (0:ℚ)) 0 1 (1/2) 0 1 (1 - 1)
     let k1 := (fun _ _ => (0:ℚ)) (t 1) yi
     let k2 := (fun _ _ => (0:ℚ)) (t 1 + 0.25*(1/2)) (yi + ((0.25:ℚ)*(1/2)) • k1)
     let k3 := (fun _ _ => (0:ℚ)) (t 1 + 0.25*(1/2)) (yi - ((0.7272:ℚ)*(1/2)) • k1 + ((0.7322:ℚ)*(1/2)) • k2)
     let k4 := (fun _ _ => (0:ℚ)) (t 1 + 0.5*(1/2)) (yi + ((0.5734:ℚ)*(1/2)) • k1 - ((2.2485:ℚ)*(1/2)) • k2 + ((3.344:ℚ)*(1/2)) • k3)
     let k5 := (fun _ _ => (0:ℚ)) (t 1 + 0.75*(1/2))
       (yi + ((0.1750:ℚ)*(1/2)) • k1 + ((0.0121:ℚ)*(1/2)) • k2 + ((0.0559:ℚ)*(1/2)) • k3 + ((0.5517:ℚ)*(1/2)) • k4)
     let km1 := (fun _ _ => (0:ℚ)) (t (1-1)) yp
     let km2 := (fun _ _ => (0:ℚ)) (t (1-1) + 0.25*(1/2)) (yp + ((0.25:ℚ)*(1/2)) • km1)
     let km3 := (fun _ _ => (0:ℚ)) (t (1-1) + 0.25*(1/2)) (yp - ((0.7272:ℚ)*(1/2)) • km1 + ((0.7322:ℚ)*(1/2)) • km2)
     let km4 := (fun _ _ => (0:ℚ)) (t (1-1) + 0.5*(1/2)) (yp + ((0.5734:ℚ)*(1/2)) • km1 - ((2.2485:ℚ)*(1/2)) • km2 + ((3.344:ℚ)*(1/2)) • km3)
     let km5 := (fun _ _ => (0:ℚ)) (t (1-1) + 0.75*(1/2))
       (yp + ((0.1750:ℚ)*(1/2)) • km1 + ((0.0121:ℚ)*(1/2)) • km2 + ((0.0559:ℚ)*(1/2)) • km3 + ((0.5517:ℚ)*(1/2)) • km4)
     improved_rk5_lotka_volterra (fun _ _ => (0:ℚ)) 0 1 (1/2) 0 1 (1 + 1)
       = yi + (1/2 : ℚ) • ((1.0222:ℚ) • k1 - (0.0222:ℚ) • km1 - (0.0961:ℚ) • (k2 - km2)
           + (0.0295:ℚ) • (k3 - km3) - (0.1:ℚ) • (k4 - km4) + (0.06444:ℚ) • (k5 - km5))) :=
  ⟨le_refl 1, le_refl 1, by norm_num [n_steps, py_int]; decide,
   C1_multistep_update (fun _ _ => (0:ℚ)) 0 1 (1/2) 0 1 1 (le_refl 1) (le_refl 1)
     (by norm_num [n_steps, py_int]; decide)⟩

theorem improved_rk5_at_zero {σ : Type} [AddCommGroup σ] [Module ℚ σ]
    (f : ℚ → σ → σ) (s e h : ℚ) (y0 : σ) (nb : ℕ) :
    improved_rk5_lotka_volterra f s e h y0 nb 0 = y0 := by
  rw [improved_rk5_lotka_volterra]

/-- C6: with the default bootstrap length n_steps_back = 1 the first
transition of the multistep integrator is exactly one classic RK4 step
of size h from (t[0], y0), i.e. the value rk4_classic produces from the
same inputs (t[0] = t_start for every grid). -/
theorem C6_bootstrap_matches_rk4_classic {σ : Type} [AddCommGroup σ] [Module ℚ σ]
    (f : ℚ → σ → σ) (s e h : ℚ) (y0 : σ) (hn : 2 ≤ n_steps s e h) :
    improved_rk5_lotka_volterra f s e h y0 1 1 = rk4_classic f s y0 h := by
  show improved_rk5_lotka_volterra f s e h y0 1 (0 + 1) = rk4_classic f s y0 h
  rw [improved_rk5_lotka_volterra]
  simp only [Nat.zero_lt_one, if_true, linspace_at_zero, improved_rk5_at_zero]
  rfl

/-- Witness for C6 on the zero field with s = 0, e = 1, h = 1/2
(grid size 3). -/
theorem C6_bootstrap_matches_rk4_classic_witness :
    2 ≤ n_steps 0 1 (1/2)
  ∧ improved_rk5_lotka_volterra (fun _ _ => (0:ℚ)) 0 1 (1/2) 0 1 1
      = rk4_classic (fun _ _ => (0:ℚ)) 0 0 (1/2) :=
  ⟨by norm_num [n_steps, py_int],
   C6_bootstrap_matches_rk4_classic (fun _ _ => (0:ℚ)) 0 1 (1/2) 0
     (by norm_num [n_steps, py_int])⟩

theorem rk4_zero_field {σ : Type} [AddCommGroup σ] [Module ℚ σ]
    (y0 : σ) (t : ℕ → ℚ) : ∀ i, rk4 (fun _ _ => (0:σ)) y0 t i = y0 := by
  intro i
  induction i with
  | zero => rfl
  | succ m ih => rw [rk4]; simp [ih]

theorem rk7_step_zero_field {σ : Type} [AddCommGroup σ] [Module ℚ σ]
    (u : ℚ) (y : σ) (h : ℚ) : rk7_step (fun _ _ => (0:σ)) u y h = y := by
  simp [rk7_step]

theorem rk7_zero_field {σ : Type} [AddCommGroup σ] [Module ℚ σ]
    (y0 : σ) (t : ℕ → ℚ) : ∀ i, rk7 (fun _ _ => (0:σ)) y0 t i = y0 := by
  intro i
  induction i with
  | zero => rfl
  | succ m ih => rw [rk7, ih, rk7_step_zero_field]

theorem improved_rk5_zero_field {σ : Type} [AddCommGroup σ] [Module ℚ σ]
    (s e h : ℚ) (y0 : σ) (nb : ℕ) :
    ∀ i, improved_rk5_lotka_volterra (fun _ _ => (0:σ)) s e h y0 nb i = y0 := by
  intro i
  induction i with
  | zero => exact improved_rk5_at_zero _ s e h y0 nb
  | succ m ih =>
    rw [improved_rk5_lotka_volterra]
    by_cases hc : m < nb <;> simp [hc, ih]

/-- C9: on the identically zero vector field every integrator of the
repository (rk4_classic, rk5_butcher, the rk4 and rk7 grid drivers, and
improved_rk5_lotka_volterra for every bootstrap length, including 0)
keeps every state equal to the initial condition: no drift when the
derivative is zero everywhere.  For n_steps_back = 0 the source anchors
the first lagged stage set at y[-1], the zero-initialised last row of
the array, while this embedding anchors it at y[0]; on the zero field
every stage evaluates to 0 whatever its anchor, so the conclusion is
the same for both. -/
theorem C9_zero_field_no_drift {σ : Type} [AddCommGroup σ] [Module ℚ σ]
    (u h s e : ℚ) (y : σ) (y0 : σ) (grid : ℕ → ℚ) (nb i : ℕ) :
    rk4_classic (fun _ _ => (0:σ)) u y h = y
  ∧ rk5_butcher (fun _ _ => (0:σ)) u y h = y
  ∧ rk4 (fun _ _ => (0:σ)) y0 grid i = y0
  ∧ rk7 (fun _ _ => (0:σ)) y0 grid i = y0
  ∧ improved_rk5_lotka_volterra (fun _ _ => (0:σ)) s e h y0 nb i = y0 := by
  refine ⟨?_, ?_, rk4_zero_field y0 grid i, rk7_zero_field y0 grid i,
    improved_rk5_zero_field s e h y0 nb i⟩
  · simp [rk4_classic]
  · simp [rk5_butcher]

/-- Witness for C9 on scalars at the previously delicate bootstrap
length nb = 0, with i = 2. -/
theorem C9_zero_field_no_drift_witness :
    rk4_classic (fun _ _ => (0:ℚ)) 0 3 (1/2) = 3
  ∧ rk5_butcher (fun _ _ => (0:ℚ)) 0 3 (1/2) = 3
  ∧ rk4 (fun _ _ => (0:ℚ)) 5 (fun _ => 0) 2 = 5
  ∧ rk7 (fun _ _ => (0:ℚ)) 5 (fun _ => 0) 2 = 5
  ∧ improved_rk5_lotka_volterra (fun _ _ => (0:ℚ)) 0 1 (1/2) 5 0 2 = 5 :=
  C9_zero_field_no_drift 0 (1/2) 0 1 3 5 (fun _ => 0) 0 2

/-- Counterexample for C3: the comparison output contains no RMSE.  For
the trajectories with componentwise differences (1, 0, 0) and (7, 0, 0)
the emitted chaos metrics record is exactly the three MAE entries
mae_x = 4, mae_y = 0, mae_z = 0; the per-component RMSE of the first
component is sqrt((1 + 49)/2) = 5, and no emitted value equals 5, so the
record does not contain a per-component RMSE value. -/
theorem C3_counterexample :
    rk5_comparison_metrics [![1, 0, 0], ![7, 0, 0]] [![0, 0, 0], ![0, 0, 0]]
      = [("mae_x", 4), ("mae_y", 0), ("mae_z", 0)]
  ∧ (5:ℚ) ∉ (rk5_comparison_metrics [![1, 0, 0], ![7, 0, 0]]
      [![0, 0, 0], ![0, 0, 0]]).map Prod.snd := by
  have hmet : rk5_comparison_metrics [![1, 0, 0], ![7, 0, 0]] [![0, 0, 0], ![0, 0, 0]]
      = [("mae_x", 4), ("mae_y", 0), ("mae_z", 0)] := by
    simp only [rk5_comparison_metrics, mae_component, List.zip_cons_cons, List.zip_nil_right,
      List.map_cons, List.map_nil, List.sum_cons, List.sum_nil, List.length_cons,
      List.length_nil]
    norm_num
  refine ⟨hmet, ?_⟩
  rw [hmet]
  simp only [List.map_cons, List.map_nil, List.mem_cons, List.not_mem_nil]
  norm_num

/-- C3 as amended: the comparison step computes, for each state
component, the mean absolute error mean(|a-b|) over time; the chaos
script emits only the per-component MAE under the keys mae_x, mae_y,
mae_z, and the SEI script emits per-component max-abs and (rounded)
mean-abs stats under the labels S, E, I1, I2, R; no RMSE is computed. -/
theorem C3_amended_mae_only (ya yb : List (Fin 3 → ℚ)) (y4 y7 : List (Fin 5 → ℚ))
    (j : Fin 3) (k : Fin 5)
    (hab : 0 < (ya.zip yb).length) (h47 : 0 < (y4.zip y7).length) :
    (rk5_comparison_metrics ya yb).map Prod.fst = ["mae_x", "mae_y", "mae_z"]
  ∧ ((rk5_comparison_metrics ya yb).map Prod.snd).getD (j : ℕ) 0 * ((ya.zip yb).length : ℚ)
      = ((ya.zip yb).map (fun p => |p.1 j - p.2 j|)).sum
  ∧ (sei_stats y4 y7).map SeiStat.label = sei_labels
  ∧ ((sei_stats y4 y7).map SeiStat.mean_abs).getD (k : ℕ) 0
      = round_value
          (((y4.zip y7).map (fun p => |p.1 k - p.2 k|)).sum / ((y4.zip y7).length : ℚ)) := by
  have hablen : ((ya.zip yb).length : ℚ) ≠ 0 := Nat.cast_ne_zero.mpr (by omega)
  refine ⟨rfl, ?_, rfl, ?_⟩
  · fin_cases j <;>
      simp only [rk5_comparison_metrics, List.map_cons, List.map_nil, List.getD_cons_zero,
        List.getD_cons_succ, Fin.val_zero, Fin.val_one, Fin.val_two, Fin.isValue] <;>
      rw [mae_component, div_mul_cancel₀ _ hablen] <;> rfl
  · fin_cases k <;>
      simp only [sei_stats, sei_mean_abs, sei_diff_col, List.map_cons, List.map_nil,
        List.length_map, List.getD_cons_zero, List.getD_cons_succ, Fin.isValue] <;> rfl

/-- Witness for C3 (amended) at singleton zero trajectories, j = 0, k = 0. -/
theorem C3_amended_mae_only_witness :
    0 < ([![(0:ℚ), 0, 0]].zip [![(0:ℚ), 0, 0]]).length
  ∧ 0 < ([![(0:ℚ), 0, 0, 0, 0]].zip [![(0:ℚ), 0, 0, 0, 0]]).length
  ∧ ((rk5_comparison_metrics [![(0:ℚ), 0, 0]] [![(0:ℚ), 0, 0]]).map Prod.fst
      = ["mae_x", "mae_y", "mae_z"]
  ∧ ((rk5_comparison_metrics [![(0:ℚ), 0, 0]] [![(0:ℚ), 0, 0]]).map Prod.snd).getD
        ((0 : Fin 3) : ℕ) 0 * (([![(0:ℚ), 0, 0]].zip [![(0:ℚ), 0, 0]]).length : ℚ)
      = (([![(0:ℚ), 0, 0]].zip [![(0:ℚ), 0, 0]]).map
          (fun p => |p.1 (0 : Fin 3) - p.2 (0 : Fin 3)|)).sum
  ∧ (sei_stats [![(0:ℚ), 0, 0, 0, 0]] [![(0:ℚ), 0, 0, 0, 0]]).map SeiStat.label = sei_labels
  ∧ ((sei_stats [![(0:ℚ), 0, 0, 0, 0]] [![(0:ℚ), 0, 0, 0, 0]]).map SeiStat.mean_abs).getD
        ((0 : Fin 5) : ℕ) 0
      = round_value
          ((([![(0:ℚ), 0, 0, 0, 0]].zip [![(0:ℚ), 0, 0, 0, 0]]).map
              (fun p => |p.1 (0 : Fin 5) - p.2 (0 : Fin 5)|)).sum
            / (([![(0:ℚ), 0, 0, 0, 0]].zip [![(0:ℚ), 0, 0, 0, 0]]).length : ℚ))) :=
  ⟨by decide, by decide,
   C3_amended_mae_only [![(0:ℚ), 0, 0]] [![(0:ℚ), 0, 0]]
     [![(0:ℚ), 0, 0, 0, 0]] [![(0:ℚ), 0, 0, 0, 0]] 0 0 (by decide) (by decide)⟩

/-- Counterexample for C5: inside improved_rk5_lotka_volterra the grid
is np.linspace(start, end, n_steps) whose spacing is
(end - start)/(n_steps - 1), not the step size h.  For
(start, end, step) = (0, 1, 2/5): n_steps = int(2.5) + 1 = 3, and the
first two grid values differ by 1/2, not by the step 2/5. -/
theorem C5_counterexample :
    (linspace 0 1 (n_steps 0 1 (2/5))).getD 1 0
      - (linspace 0 1 (n_steps 0 1 (2/5))).getD 0 0 = 1/2
  ∧ ((1:ℚ)/2) ≠ 2/5 := by
  have hn : n_steps 0 1 (2/5) = 3 := by norm_num [n_steps, py_int]; decide
  constructor
  · rw [hn, linspace, getD_map_range _ _ (by omega : 1 < 3),
      getD_map_range _ _ (by omega : 0 < 3)]
    norm_num [linspace_at]
  · norm_num

/-- C5 as amended: for step > 0 and start < end, solve_ode's arange grid
starts at start, is strictly increasing with consecutive values exactly
step apart, and the trajectory's first state is the initial condition;
the np.linspace grid built inside improved_rk5_lotka_volterra starts at
start, is strictly increasing, and its consecutive values differ by
(end - start)/(n_steps - 1) — which need not equal step (see the
counterexample) — and the multistep trajectory's first state is the
initial condition. -/
theorem C5_amended_grid_invariant {σ : Type} [AddCommGroup σ] [Module ℚ σ]
    (method : (ℚ → σ → σ) → ℚ → σ → ℚ → σ) (f : ℚ → σ → σ)
    (s e h : ℚ) (y0 : σ) (nb i j : ℕ)
    (hh : 0 < h) (hse : s < e)
    (hi : i + 1 < (arange s e h).length)
    (hj : j + 1 < n_steps s e h) :
    (arange s e h).head? = some s
  ∧ (arange s e h).getD (i+1) 0 - (arange s e h).getD i 0 = h
  ∧ (arange s e h).Pairwise (· < ·)
  ∧ solve_ode_y method f s h y0 0 = y0
  ∧ (linspace s e (n_steps s e h)).head? = some s
  ∧ (linspace s e (n_steps s e h)).getD (j+1) 0 - (linspace s e (n_steps s e h)).getD j 0
      = (e - s) / ((n_steps s e h : ℚ) - 1)
  ∧ (linspace s e (n_steps s e h)).Pairwise (· < ·)
  ∧ improved_rk5_lotka_volterra f s e h y0 nb 0 = y0 := by
  have hlen : (arange s e h).length = ⌈(e - s) / h⌉.toNat := arange_length s e h
  have hpos : 0 < ⌈(e - s) / h⌉.toNat := by
    have h1 : (0 : ℚ) < (e - s) / h := div_pos (by linarith) hh
    have h2 : (0 : ℤ) < ⌈(e - s) / h⌉ := Int.ceil_pos.mpr h1
    omega
  have hnpos : 0 < n_steps s e h := n_steps_pos s e h hh hse.le
  have hn2 : 2 ≤ n_steps s e h := by omega
  have hnotle : ¬ n_steps s e h ≤ 1 := by omega
  have hcast : (1 : ℚ) < (n_steps s e h : ℚ) := by
    exact_mod_cast hn2.trans_lt' (by norm_num)
  refine ⟨?_, ?_, ?_, rfl, ?_, ?_, ?_, improved_rk5_at_zero f s e h y0 nb⟩
  · rw [arange, head?_map_range _ hpos]
    norm_num
  · rw [hlen] at hi
    rw [arange, getD_map_range _ _ hi, getD_map_range _ _ (by omega)]
    push_cast
    ring
  · rw [arange]
    refine pairwise_lt_map_range _ _ ?_
    intro m hm
    have : (m : ℚ) < (m : ℚ) + 1 := by linarith
    have := mul_lt_mul_of_pos_right this hh
    push_cast
    linarith
  · rw [linspace, head?_map_range _ hnpos, linspace_at_zero]
  · rw [linspace, getD_map_range _ _ hj, getD_map_range _ _ (by omega)]
    rw [linspace_at, linspace_at, if_neg hnotle, if_neg hnotle]
    push_cast
    ring
  · rw [linspace]
    refine pairwise_lt_map_range _ _ ?_
    intro m hm
    rw [linspace_at, linspace_at, if_neg hnotle, if_neg hnotle]
    have hd : (0 : ℚ) < e - s := by linarith
    have hm1 : (0 : ℚ) < (n_steps s e h : ℚ) - 1 := by linarith
    push_cast
    gcongr
    linarith

/-- Witness for C5 (amended) at (s, e, h) = (0, 1, 1/2), i = 0, j = 1,
with rk4_classic on the zero field. -/
theorem C5_amended_grid_invariant_witness :
    (0:ℚ) < 1/2 ∧ (0:ℚ) < 1
  ∧ 0 + 1 < (arange 0 1 (1/2)).length
  ∧ 1 + 1 < n_steps 0 1 (1/2)
  ∧ ((arange 0 1 (1/2)).head? = some 0
  ∧ (arange 0 1 (1/2)).getD (0+1) 0 - (arange 0 1 (1/2)).getD 0 0 = 1/2
  ∧ (arange 0 1 (1/2)).Pairwise (· < ·)
  ∧ solve_ode_y rk4_classic (fun _ _ => (0:ℚ)) 0 (1/2) 0 0 = 0
  ∧ (linspace 0 1 (n_steps 0 1 (1/2))).head? = some 0
  ∧ (linspace 0 1 (n_steps 0 1 (1/2))).getD (1+1) 0
      - (linspace 0 1 (n_steps 0 1 (1/2))).getD 1 0
      = (1 - 0) / ((n_steps 0 1 (1/2) : ℚ) - 1)
  ∧ (linspace 0 1 (n_steps 0 1 (1/2))).Pairwise (· < ·)
  ∧ improved_rk5_lotka_volterra (fun _ _ => (0:ℚ)) 0 1 (1/2) 0 1 0 = 0) :=
  ⟨by norm_num, by norm_num,
   by rw [arange_length]; norm_num,
   by norm_num [n_steps, py_int],
   C5_amended_grid_invariant rk4_classic (fun _ _ => (0:ℚ)) 0 1 (1/2) 0 1 0 1
     (by norm_num) (by norm_num)
     (by rw [arange_length]; norm_num)
     (by norm_num [n_steps, py_int])⟩

/-- C7 (code bug): the override handling is not all-or-nothing.  For the
input {"timeStep": 0.02, "force": "abc"} the JSON parse succeeds, the
timeStep override is applied to h, and then float("abc") raises, which
the handler catches while announcing that the defaults are used; the run
proceeds with h = 0.02 (not the default 0.01) and all other parameters
at their defaults, so the override is partially applied.  A JSON parse
failure (none) does fall back to the full defaults. -/
theorem C7_partial_override_on_conversion_error :
    parse_overrides (some [("timeStep", OValue.num (1/50)), ("force", OValue.bad)])
      = { default_config with h := 1/50 }
  ∧ (parse_overrides (some [("timeStep", OValue.num (1/50)), ("force", OValue.bad)])).h
      ≠ default_config.h
  ∧ parse_overrides none = default_config := by
  have hev : parse_overrides (some [("timeStep", OValue.num (1/50)), ("force", OValue.bad)])
      = { default_config with h := 1/50 } := by
    simp [parse_overrides, apply_overrides, apply_key, List.lookup, bind, Except.bind]
  refine ⟨hev, ?_, rfl⟩
  rw [hev]
  norm_num [default_config]
